import Mathlib

/-!
Verification of the Execution Orchestration & Safety Engine of the
computer-use-agent repository (client/automation package).

The Python sources are embedded shallowly:

* `safety_controller.py` — `RiskLevel`, `SafetyRule`, `SafetyAssessment`,
  `SafetyController._requires_confirmation`, `_should_block_execution`,
  `_generate_warning_message` and `assess_action_safety` (the fallible
  rule-scanning prefix of the `try` block is passed in as an
  `Except String (List SafetyRule)` value: `.error e` models a Python
  exception with message `e`, `.ok rules` models a normal scan producing
  the triggered rules).
* `result_validator.py` — `ValidationResult` and the per-action-type
  dispatch of `validate_action_result`; the mouse-position / screenshot
  dependent branches (click, scroll/drag/move) are parameters since they
  read the live desktop.
* `execution_manager.py` — `ExecutionWorker`: `_should_confirm_action`,
  `_request_confirmation` (polling wait modelled on a 100 ms tick,
  timeout = 30 s = 300 ticks), `_execute_with_retry`, and the `run`
  main loop together with its final `TaskExecutionResult` assembly.
  The cooperative `should_stop` flag is modelled by the points at which
  the worker observes it: a `stopBefore` bit per loop iteration (the
  top-of-loop / pause-loop checks) and a `stopped` confirmation outcome
  (stop observed inside the confirmation wait).

Wall-clock times (`execution_time`, `assessment_time`) and screenshot
payloads are not modelled; no claim depends on them.
-/

/-- `RiskLevel` enum of `safety_controller.py` (declaration order LOW,
MEDIUM, HIGH, CRITICAL). -/
inductive RiskLevel where
  | low
  | medium
  | high
  | critical
deriving DecidableEq, Repr

/-- `list(RiskLevel).index(x)` — the ordinal used by
`assess_action_safety` as the `max` key. -/
def RiskLevel.index : RiskLevel → Nat
  | .low => 0
  | .medium => 1
  | .high => 2
  | .critical => 3

/-- The safety-relevant configuration read in `SafetyController.__init__`. -/
structure SafetyConfig where
  strict_mode : Bool
  require_confirmation_for_medium : Bool
  block_high_risk : Bool
  block_critical_risk : Bool
deriving DecidableEq, Repr

/-- `SafetyRule` dataclass. -/
structure SafetyRule where
  name : String
  description : String
  pattern : String
  risk_level : RiskLevel
  applies_to : List String
  enabled : Bool := true
deriving DecidableEq, Repr

/-- `SafetyAssessment` dataclass (minus the `action` object and the
wall-clock `assessment_time`). -/
structure SafetyAssessment where
  action_index : Nat
  risk_level : RiskLevel
  triggered_rules : List SafetyRule
  requires_confirmation : Bool
  block_execution : Bool
  warning_message : String
deriving DecidableEq, Repr

/-- The `execution_stats` dict of `SafetyController`. -/
structure ExecutionStats where
  total_actions : Nat
  blocked_actions : Nat
  confirmed_actions : Nat
  auto_executed_actions : Nat
deriving DecidableEq, Repr

/-- `SafetyController._requires_confirmation`. -/
def requires_confirmation_of_risk (cfg : SafetyConfig) : RiskLevel → Bool
  | .low => false
  | .medium => cfg.require_confirmation_for_medium
  | .high => true
  | .critical => true

/-- `SafetyController._should_block_execution`. -/
def should_block_execution (cfg : SafetyConfig) : RiskLevel → Bool
  | .critical => cfg.block_critical_risk
  | .high => cfg.block_high_risk
  | _ => false

/-- `max(risk_levels, key=lambda x: list(RiskLevel).index(x))` on a
nonempty list (Python `max` keeps the first maximal element). -/
def maxRisk (r : RiskLevel) (rest : List SafetyRule) : RiskLevel :=
  rest.foldl (fun acc s => if acc.index < s.risk_level.index then s.risk_level else acc) r

/-- The risk-level descriptions used by `_generate_warning_message`. -/
def riskDescription : RiskLevel → String
  | .low => "低风险"
  | .medium => "中等风险"
  | .high => "高风险"
  | .critical => "极高风险"

/-- `SafetyController._generate_warning_message`.  `text` is
`action.text` (`none` or `some ""` are falsy in Python). -/
def generate_warning_message (actionType description : String) (text : Option String)
    (triggered : List SafetyRule) (risk : RiskLevel) : String :=
  if triggered.isEmpty then ""
  else
    let q := String.singleton (Char.ofNat 39)
    let ruleLines := (triggered.take 3).map (fun r => "• " ++ r.name ++ ": " ++ r.description)
    let extra :=
      if triggered.length > 3 then
        ["• ... 还有 " ++ toString (triggered.length - 3) ++ " 个安全规则被触发"]
      else []
    let textLines :=
      match text with
      | some t => if t = "" then [] else ["• 文本: " ++ q ++ t ++ q]
      | none => []
    String.intercalate "\n"
      (["⚠️ 检测到" ++ riskDescription risk ++ "操作:"] ++ ruleLines ++ extra ++
        ["\n操作详情:", "• 类型: " ++ actionType, "• 描述: " ++ description] ++ textLines)

/-- `SafetyController.assess_action_safety`.  The fallible scanning
prefix of the `try` block (text / coordinate / element / type checks,
producing `triggered_rules`) is supplied as `scan`; `.error e` models an
exception reaching the outer `except` handler.  Returns the assessment
together with the updated `execution_stats`. -/
def assess_action_safety (cfg : SafetyConfig) (stats : ExecutionStats)
    (action_index : Nat) (actionType description : String) (text : Option String)
    (scan : Except String (List SafetyRule)) : SafetyAssessment × ExecutionStats :=
  match scan with
  | .error e =>
      ({ action_index := action_index
         risk_level := .high
         triggered_rules := []
         requires_confirmation := true
         block_execution := false
         warning_message := "安全评估异常: " ++ e ++ "，建议手动确认" }, stats)
  | .ok triggered_rules =>
      let max_risk_level :=
        match triggered_rules with
        | [] => RiskLevel.low
        | r :: _ => maxRisk r.risk_level triggered_rules
      let rc := requires_confirmation_of_risk cfg max_risk_level
      let blk := should_block_execution cfg max_risk_level
      let warning := generate_warning_message actionType description text triggered_rules max_risk_level
      let stats1 := { stats with total_actions := stats.total_actions + 1 }
      let stats2 :=
        if blk then { stats1 with blocked_actions := stats1.blocked_actions + 1 }
        else if rc then { stats1 with confirmed_actions := stats1.confirmed_actions + 1 }
        else { stats1 with auto_executed_actions := stats1.auto_executed_actions + 1 }
      ({ action_index := action_index
         risk_level := max_risk_level
         triggered_rules := triggered_rules
         requires_confirmation := rc
         block_execution := blk
         warning_message := warning }, stats2)

/-- The counter invariant of the `execution_stats` dict. -/
def statsInvariant (s : ExecutionStats) : Prop :=
  s.total_actions = s.blocked_actions + s.confirmed_actions + s.auto_executed_actions

/-- C7: under any fixed configuration, `_requires_confirmation` is
monotone non-decreasing in the risk level (ordered by declaration
index LOW < MEDIUM < HIGH < CRITICAL). -/
theorem C7_requires_confirmation_monotone (cfg : SafetyConfig) (r1 r2 : RiskLevel)
    (hord : r1.index ≤ r2.index)
    (h1 : requires_confirmation_of_risk cfg r1 = true) :
    requires_confirmation_of_risk cfg r2 = true := by
  cases r1 <;> cases r2 <;>
    simp_all [requires_confirmation_of_risk, RiskLevel.index]

theorem C7_requires_confirmation_monotone_witness :
    RiskLevel.index .medium ≤ RiskLevel.index .high ∧
      requires_confirmation_of_risk ⟨false, true, false, true⟩ .high = true :=
  ⟨by decide,
    C7_requires_confirmation_monotone ⟨false, true, false, true⟩ .medium .high
      (by decide) (by decide)⟩

/-- C4: an internal exception during assessment fails safe —
`assess_action_safety` returns (rather than raises) an assessment with
HIGH risk, `requires_confirmation = true`, `block_execution = false`,
and a warning message noting the assessment error. -/
theorem C4_assessment_exception_fails_safe (cfg : SafetyConfig) (stats : ExecutionStats)
    (idx : Nat) (ty d : String) (text : Option String) (e : String) :
    let out := assess_action_safety cfg stats idx ty d text (.error e)
    out.1.risk_level = .high ∧
      out.1.requires_confirmation = true ∧
      out.1.block_execution = false ∧
      out.1.warning_message = "安全评估异常: " ++ e ++ "，建议手动确认" :=
  ⟨rfl, rfl, rfl, rfl⟩

/-- C9: every normally-returning call to `assess_action_safety`
increments `total_actions` and exactly one of `blocked_actions` /
`confirmed_actions` / `auto_executed_actions`; the exception path leaves
all four counters unchanged; hence the invariant
`total = blocked + confirmed + auto` is preserved. -/
theorem C9_stats_invariant (cfg : SafetyConfig) (stats : ExecutionStats)
    (idx : Nat) (ty d : String) (text : Option String)
    (scan : Except String (List SafetyRule))
    (hinv : statsInvariant stats) :
    statsInvariant (assess_action_safety cfg stats idx ty d text scan).2 ∧
      (∀ e, scan = .error e →
        (assess_action_safety cfg stats idx ty d text scan).2 = stats) ∧
      (∀ rules, scan = .ok rules →
        (assess_action_safety cfg stats idx ty d text scan).2.total_actions
            = stats.total_actions + 1 ∧
          (((assess_action_safety cfg stats idx ty d text scan).2.blocked_actions
                = stats.blocked_actions + 1 ∧
              (assess_action_safety cfg stats idx ty d text scan).2.confirmed_actions
                = stats.confirmed_actions ∧
              (assess_action_safety cfg stats idx ty d text scan).2.auto_executed_actions
                = stats.auto_executed_actions) ∨
            ((assess_action_safety cfg stats idx ty d text scan).2.blocked_actions
                = stats.blocked_actions ∧
              (assess_action_safety cfg stats idx ty d text scan).2.confirmed_actions
                = stats.confirmed_actions + 1 ∧
              (assess_action_safety cfg stats idx ty d text scan).2.auto_executed_actions
                = stats.auto_executed_actions) ∨
            ((assess_action_safety cfg stats idx ty d text scan).2.blocked_actions
                = stats.blocked_actions ∧
              (assess_action_safety cfg stats idx ty d text scan).2.confirmed_actions
                = stats.confirmed_actions ∧
              (assess_action_safety cfg stats idx ty d text scan).2.auto_executed_actions
                = stats.auto_executed_actions + 1))) := by
  cases scan with
  | error e =>
      exact ⟨hinv, fun _ _ => rfl, fun rules h => Except.noConfusion h⟩
  | ok rules =>
      refine ⟨?_, fun e h => Except.noConfusion h, fun rules2 h => ?_⟩
      · unfold statsInvariant at hinv ⊢
        simp only [assess_action_safety]
        split
        · simp; omega
        · split
          · simp; omega
          · simp; omega
      · simp only [assess_action_safety]
        split
        · exact ⟨rfl, Or.inl ⟨rfl, rfl, rfl⟩⟩
        · split
          · exact ⟨rfl, Or.inr (Or.inl ⟨rfl, rfl, rfl⟩)⟩
          · exact ⟨rfl, Or.inr (Or.inr ⟨rfl, rfl, rfl⟩)⟩

theorem C9_stats_invariant_witness :
    statsInvariant ⟨3, 1, 1, 1⟩ ∧
      statsInvariant (assess_action_safety ⟨false, true, false, true⟩ ⟨3, 1, 1, 1⟩ 0
        "type" "输入文本" none (.ok [])).2 :=
  ⟨rfl,
    (C9_stats_invariant ⟨false, true, false, true⟩ ⟨3, 1, 1, 1⟩ 0 "type" "输入文本" none
      (.ok []) rfl).1⟩

/-! ## Result Validator (`result_validator.py`) -/

/-- `ValidationResult` enum (the PARTIAL member is named `partialResult`
here because Lean reserves that word). -/
inductive ValidationResult where
  | success
  | failed
  | partialResult
  | timeout
  | error
deriving DecidableEq, Repr

/-- The `valid_keys` list of `ResultValidator._validate_key_action`. -/
def valid_keys : List String :=
  ["ctrl", "alt", "shift", "cmd", "win", "tab", "enter", "esc", "space"]

/-- Python `str.isalnum()` (true iff nonempty and every character is
alphanumeric).  Exact for ASCII strings: on ASCII characters Python's
alphanumeric set is exactly `[0-9A-Za-z]`, which is what
`Char.isAlphanum` tests.  Python additionally accepts non-ASCII Unicode
alphanumerics (e.g. CJK characters), which this model does not; the
key-action clause of the C8 theorem therefore carries an all-ASCII
hypothesis on the text, scoping it to the domain where this function
and the program agree character for character. -/
def py_isalnum (s : String) : Bool :=
  s ≠ "" && s.toList.all Char.isAlphanum

/-- Lower-casing of one character as Python `str.lower()` does on
ASCII (`A-Z → a-z`, everything else in ASCII unchanged); non-ASCII
characters are left as-is, so `pyLower` is exact on ASCII strings. -/
def asciiLower (c : Char) : Char :=
  if 65 ≤ c.toNat ∧ c.toNat ≤ 90 then Char.ofNat (c.toNat + 32) else c

/-- Python `str.lower()` (exact on ASCII strings). -/
def pyLower (s : String) : String :=
  String.mk (s.data.map asciiLower)

/-- The exact set of characters Python's `str.isspace()` accepts and
`str.strip()` removes: TAB, LF, VT, FF, CR, FS, GS, RS, US, SPACE,
NEL, NBSP, OGHAM SPACE MARK, U+2000-U+200A, LINE SEPARATOR, PARAGRAPH
SEPARATOR, NARROW NBSP, MEDIUM MATHEMATICAL SPACE, IDEOGRAPHIC SPACE. -/
def pyWhitespace (c : Char) : Bool :=
  [9, 10, 11, 12, 13, 28, 29, 30, 31, 32, 133, 160, 5760,
    8192, 8193, 8194, 8195, 8196, 8197, 8198, 8199, 8200, 8201, 8202,
    8232, 8233, 8239, 8287, 12288].contains c.toNat

/-- Python `str.strip()` (no argument: strips the `pyWhitespace`
characters from both ends). -/
def pyStrip (s : String) : String :=
  String.mk (((s.data.dropWhile pyWhitespace).reverse.dropWhile pyWhitespace).reverse)

/-- All characters of `s` are ASCII.  On such strings `pyLower`,
`pyStrip` and `py_isalnum` agree exactly with Python's `str.lower()`,
`str.strip()` and `str.isalnum()`. -/
def isAsciiString (s : String) : Bool :=
  s.data.all (fun c => decide (c.toNat < 128))

/-- Python `str.split('+')` on the character list. -/
def splitPlus : List Char → List (List Char)
  | [] => [[]]
  | c :: rest =>
      let r := splitPlus rest
      if c = '+' then [] :: r
      else
        match r with
        | [] => [[c]]
        | tok :: toks => (c :: tok) :: toks

/-- The tokens `action.text.lower().split('+')`, each `.strip()`-ped
(`_validate_key_action`). -/
def keyTokens (t : String) : List String :=
  (splitPlus (pyLower t).data).map (fun cs => pyStrip (String.mk cs))

/-- One token passes the check of `_validate_key_action` when it is in
`valid_keys` or is alphanumeric. -/
def recognizedKey (k : String) : Bool :=
  valid_keys.contains k || py_isalnum k

/-- `ResultValidator._validate_key_action` (pure part; its `except`
branch is unreachable for this computation).  `none` / `some ""` model a
falsy `action.text`.  Exact for all-ASCII `action.text` (the embedded
`lower`/`strip`/`isalnum` primitives agree with Python there); the C8
theorem's token-check clause is scoped accordingly. -/
def validate_key_action (text : Option String) : ValidationResult :=
  match text with
  | none => .success
  | some t =>
      if t = "" then .success
      else if (keyTokens t).all recognizedKey then .success
      else .partialResult

/-- `ResultValidator._validate_type_action`: both branches return
SUCCESS. -/
def validate_type_action (_text : Option String) : ValidationResult :=
  .success

/-- The action-type dispatch of
`ResultValidator.validate_action_result`.  The click and
scroll/drag/move branches read the live mouse position and screenshots,
so their outcomes are parameters (`clickResult`, `movementResult`); the
`keys` field of the action is never consulted by the validator, which is
why it is an unused argument.  Note there is no branch for `hotkey`:
it falls through to the default SUCCESS. -/
def validate_action_result_kind (actionType : String) (text : Option String)
    (_keys : Option (List String))
    (clickResult movementResult : ValidationResult) : ValidationResult :=
  let t := pyLower actionType
  if t = "click" then clickResult
  else if t = "type" then validate_type_action text
  else if t = "key" then validate_key_action text
  else if t = "wait" then ValidationResult.success
  else if t = "scroll" ∨ t = "drag" ∨ t = "move" then movementResult
  else ValidationResult.success

/-- C8 counterexample: a `hotkey` action whose key combination contains
the unrecognized token `@#` is validated SUCCESS, not PARTIAL — the
validator dispatch has no `hotkey` branch, so such actions fall through
to the default SUCCESS regardless of their tokens. -/
theorem C8_hotkey_unrecognized_tokens_success :
    validate_action_result_kind "hotkey" (some "ctrl+@#") (some ["ctrl", "@#"])
        ValidationResult.success ValidationResult.success = ValidationResult.success ∧
      recognizedKey "@#" = false ∧
      ValidationResult.success ≠ ValidationResult.partialResult := by
  refine ⟨rfl, by decide, by decide⟩

/-- C8 (amended): `type` and `hotkey` actions always validate SUCCESS
(no token check is performed for them); only `key` actions are checked —
SUCCESS when every `+`-separated, stripped, lower-cased token of
`action.text` is in `valid_keys` or alphanumeric, PARTIAL otherwise,
and SUCCESS when `action.text` is absent or empty.  The token-check
clause is stated for all-ASCII texts, the domain on which the embedded
`lower`/`strip`/`isalnum` primitives coincide exactly with Python's
(Python's Unicode-aware `isalnum` additionally accepts non-ASCII
alphanumerics, outside this theorem's scope). -/
theorem C8_key_validation_policy :
    (∀ text keys c m,
        validate_action_result_kind "type" text keys c m = ValidationResult.success) ∧
    (∀ text keys c m,
        validate_action_result_kind "hotkey" text keys c m = ValidationResult.success) ∧
    (∀ (t : String) keys c m, t ≠ "" → isAsciiString t = true →
      ((keyTokens t).all recognizedKey = true →
        validate_action_result_kind "key" (some t) keys c m = ValidationResult.success) ∧
      ((keyTokens t).all recognizedKey = false →
        validate_action_result_kind "key" (some t) keys c m = ValidationResult.partialResult)) ∧
    (∀ keys c m,
        validate_action_result_kind "key" none keys c m = ValidationResult.success) := by
  refine ⟨fun _ _ _ _ => rfl, fun _ _ _ _ => rfl, ?_, fun _ _ _ => rfl⟩
  intro t keys c m ht _hascii
  constructor <;> intro hall
  · show validate_key_action (some t) = ValidationResult.success
    simp [validate_key_action, ht, hall]
  · show validate_key_action (some t) = ValidationResult.partialResult
    simp [validate_key_action, ht, hall]

theorem C8_key_validation_policy_witness :
    ("ctrl+x" : String) ≠ "" ∧ isAsciiString "ctrl+x" = true ∧
      validate_action_result_kind "key" (some "ctrl+x") none
        ValidationResult.success ValidationResult.success = ValidationResult.success :=
  ⟨by decide, by decide,
    (C8_key_validation_policy.2.2.1 "ctrl+x" none ValidationResult.success
      ValidationResult.success (by decide) (by decide)).1 (by decide)⟩

/-! ## Retry loop (`ExecutionWorker._execute_with_retry`) -/

/-- `ExecutionStatus` enum of `automation_engine.py`. -/
inductive ExecutionStatus where
  | pending
  | running
  | success
  | failed
  | cancelled
  | paused
deriving DecidableEq, Repr

/-- The `while retry_count <= max_retries` loop of
`_execute_with_retry`, in the state where the loop guard has just
succeeded: `rc` is the current `retry_count` and `remaining` is
`max_retries - retry_count` (the guard `retry_count <= max_retries`
holds iff `remaining ≥ 0`).  `attempt k` is the status produced by
`engine._execute_single_action` on the attempt made with
`retry_count = k`. -/
def retryAux (autoRetry : Bool) (attempt : Nat → ExecutionStatus) :
    Nat → Nat → ExecutionStatus × Nat
  | rc, 0 =>
      if attempt rc = ExecutionStatus.success ∨ autoRetry = false then (attempt rc, rc)
      else (attempt rc, rc + 1)
  | rc, r + 1 =>
      if attempt rc = ExecutionStatus.success ∨ autoRetry = false then (attempt rc, rc)
      else retryAux autoRetry attempt (rc + 1) r

/-- `ExecutionWorker._execute_with_retry`: returns the final
`ExecutionResult` status together with the final `retry_count` (which is
stored into `self.retry_counts[action_index]` when positive; a zero
count leaves no entry, i.e. a recorded count of 0). -/
def execute_with_retry (autoRetry : Bool) (maxRetries : Nat)
    (attempt : Nat → ExecutionStatus) : ExecutionStatus × Nat :=
  retryAux autoRetry attempt 0 (if autoRetry then maxRetries else 0)

theorem retryAux_count_le (a : Bool) (f : Nat → ExecutionStatus) :
    ∀ (rem rc : Nat), (retryAux a f rc rem).2 ≤ rc + rem + 1 := by
  intro rem
  induction rem with
  | zero =>
      intro rc
      unfold retryAux
      by_cases hc : f rc = ExecutionStatus.success ∨ a = false
      · rw [if_pos hc]
        exact Nat.le_add_right rc 1
      · rw [if_neg hc]
  | succ r ih =>
      intro rc
      unfold retryAux
      by_cases hc : f rc = ExecutionStatus.success ∨ a = false
      · rw [if_pos hc]
        exact Nat.le_add_right rc (r + 2)
      · rw [if_neg hc]
        exact Nat.le_trans (ih (rc + 1)) (by omega)

theorem retryAux_success_count_le (a : Bool) (f : Nat → ExecutionStatus) :
    ∀ (rem rc : Nat), (retryAux a f rc rem).1 = ExecutionStatus.success →
      (retryAux a f rc rem).2 ≤ rc + rem := by
  intro rem
  induction rem with
  | zero =>
      intro rc h
      unfold retryAux at h ⊢
      by_cases hc : f rc = ExecutionStatus.success ∨ a = false
      · rw [if_pos hc]
        exact Nat.le_refl _
      · rw [if_neg hc] at h
        exact absurd (Or.inl h) hc
  | succ r ih =>
      intro rc h
      unfold retryAux at h ⊢
      by_cases hc : f rc = ExecutionStatus.success ∨ a = false
      · rw [if_pos hc]
        exact Nat.le_add_right rc (r + 1)
      · rw [if_neg hc] at h ⊢
        exact Nat.le_trans (ih (rc + 1) h) (by omega)

/-- C5 counterexample: with `auto_retry = true` and `max_retries = 2`,
an action whose every attempt fails ends with a recorded retry count of
3 — strictly greater than `max_retries` (the loop increments
`retry_count` once more after the last failed attempt, before the guard
stops it). -/
theorem C5_recorded_count_exceeds_max :
    (execute_with_retry true 2 (fun _ => ExecutionStatus.failed)).2 = 3 ∧
      ¬ (execute_with_retry true 2 (fun _ => ExecutionStatus.failed)).2 ≤ 2 := by
  refine ⟨rfl, by decide⟩

/-- C5 (amended): the recorded retry count is at most `max_retries + 1`
(it exceeds `max_retries` only when every attempt failed); it is 0
whenever `auto_retry` is false; retries stop early on the first SUCCESS,
and whenever the final status is SUCCESS the count is at most
`max_retries`; in the spec scenario (`auto_retry = true`,
`max_retries = 2`, attempts 1 and 2 fail, attempt 3 succeeds) the final
status is SUCCESS with recorded retry count 2. -/
theorem C5_retry_count_policy (autoRetry : Bool) (maxRetries : Nat)
    (attempt : Nat → ExecutionStatus) :
    (execute_with_retry autoRetry maxRetries attempt).2 ≤ maxRetries + 1 ∧
      (autoRetry = false → (execute_with_retry autoRetry maxRetries attempt).2 = 0) ∧
      ((execute_with_retry autoRetry maxRetries attempt).1 = ExecutionStatus.success →
        (execute_with_retry autoRetry maxRetries attempt).2 ≤ maxRetries) ∧
      (autoRetry = true → maxRetries = 2 →
        attempt 0 = ExecutionStatus.failed → attempt 1 = ExecutionStatus.failed →
        attempt 2 = ExecutionStatus.success →
        execute_with_retry autoRetry maxRetries attempt = (ExecutionStatus.success, 2)) := by
  refine ⟨?_, ?_, ?_, ?_⟩
  · unfold execute_with_retry
    cases autoRetry with
    | false =>
        have h := retryAux_count_le false attempt 0 0
        simp only [Bool.false_eq_true, if_false] at h ⊢
        omega
    | true =>
        have h := retryAux_count_le true attempt maxRetries 0
        simp only [if_true] at h ⊢
        omega
  · intro ha
    subst ha
    simp [execute_with_retry, retryAux]
  · intro h
    unfold execute_with_retry at h ⊢
    cases autoRetry with
    | false =>
        simp only [Bool.false_eq_true, if_false] at h ⊢
        have h2 := retryAux_success_count_le false attempt 0 0 h
        omega
    | true =>
        simp only [if_true] at h ⊢
        have h2 := retryAux_success_count_le true attempt maxRetries 0 h
        omega
  · intro ha hm h0 h1 h2
    subst ha; subst hm
    simp [execute_with_retry, retryAux, h0, h1, h2]

theorem C5_retry_count_policy_witness :
    (fun (_ : Nat) => ExecutionStatus.success) 0 = ExecutionStatus.success ∧
      (execute_with_retry false 2 (fun _ => ExecutionStatus.success)).2 = 0 :=
  ⟨rfl, (C5_retry_count_policy false 2 (fun _ => ExecutionStatus.success)).2.1 rfl⟩

/-! ## Confirmation wait (`ExecutionWorker._request_confirmation`)

The polling wait is modelled on a discrete 100 ms tick: the timeout of
30 s is 300 ticks.  `stopAt = some s` means `stop()` ran and its effects
(`should_stop = true`, `waiting_for_confirmation = false`) are visible
from tick `s` on; `respAt = some (t, b)` means `confirm_action b` ran
and its effects (`confirmation_result = b`,
`waiting_for_confirmation = false`) are visible from tick `t` on. -/

/-- `self.should_stop` as observed at tick `n`. -/
def stopSeen (stopAt : Option Nat) (n : Nat) : Bool :=
  match stopAt with
  | some s => decide (s ≤ n)
  | none => false

/-- `self.waiting_for_confirmation == False` caused by a response, as
observed at tick `n`. -/
def respSeen (respAt : Option (Nat × Bool)) (n : Nat) : Bool :=
  match respAt with
  | some (t, _) => decide (t ≤ n)
  | none => false

/-- The code after the wait loop of `_request_confirmation`, executed at
exit tick `n`: `if self.should_stop: return False`, `elif` elapsed `>=`
timeout `: return False`, `return self.confirmation_result == True`
(where `confirmation_result` is still `None` if no response arrived). -/
def confirmPost (stopAt : Option Nat) (respAt : Option (Nat × Bool)) (n : Nat) : Bool :=
  if stopSeen stopAt n then false
  else if 300 ≤ n then false
  else
    match respAt with
    | some (t, b) => decide (t ≤ n) && b
    | none => false

/-- The `while (waiting and not should_stop and elapsed < timeout)` poll
loop, `fuel` bounding the recursion (301 ticks always suffice because
the guard `n < 300` fails by tick 300). -/
def confirmLoop (stopAt : Option Nat) (respAt : Option (Nat × Bool)) : Nat → Nat → Bool
  | 0, n => confirmPost stopAt respAt n
  | fuel + 1, n =>
      if !respSeen respAt n && !stopSeen stopAt n && decide (n < 300) then
        confirmLoop stopAt respAt fuel (n + 1)
      else confirmPost stopAt respAt n

/-- `ExecutionWorker._request_confirmation` (its boolean outcome). -/
def request_confirmation (stopAt : Option Nat) (respAt : Option (Nat × Bool)) : Bool :=
  confirmLoop stopAt respAt 301 0

theorem confirmLoop_false (stopAt : Option Nat) (respAt : Option (Nat × Bool))
    (h : ∀ n, confirmPost stopAt respAt n = false) :
    ∀ (fuel n : Nat), confirmLoop stopAt respAt fuel n = false := by
  intro fuel
  induction fuel with
  | zero => exact fun n => h n
  | succ f ih =>
      intro n
      unfold confirmLoop
      split
      · exact ih (n + 1)
      · exact h n

theorem confirmPost_noresp (stopAt : Option Nat) (respAt : Option (Nat × Bool)) (n : Nat)
    (h : ∀ t b, respAt = some (t, b) → 300 ≤ t) :
    confirmPost stopAt respAt n = false := by
  unfold confirmPost
  split
  · rfl
  · split
    · rfl
    · rename_i hn
      match respAt, h with
      | none, _ => rfl
      | some (t, b), h =>
          have ht := h t b rfl
          have : ¬ t ≤ n := by omega
          simp [this]

theorem confirmPost_stop (s : Nat) (respAt : Option (Nat × Bool)) (n : Nat)
    (h : ∀ t b, respAt = some (t, b) → s ≤ t) :
    confirmPost (some s) respAt n = false := by
  unfold confirmPost
  split
  · rfl
  · split
    · rfl
    · rename_i hstop hn
      simp only [stopSeen, decide_eq_true_eq] at hstop
      match respAt, h with
      | none, _ => rfl
      | some (t, b), h =>
          have ht := h t b rfl
          have : ¬ t ≤ n := by omega
          simp [this]

theorem confirmPost_decline (stopAt : Option Nat) (t n : Nat) :
    confirmPost stopAt (some (t, false)) n = false := by
  unfold confirmPost
  split
  · rfl
  · split
    · rfl
    · simp

/-- C6: a confirmation request with no boolean response inside the
30-second window returns `false`, exactly as an explicit decline does
(an explicit decline returns `false` whenever it arrives); a stop
observed while waiting (the stop firing while the response, if any, has
not yet arrived) likewise yields the declined outcome. -/
theorem C6_timeout_equals_decline (stopAt : Option Nat)
    (respAt : Option (Nat × Bool)) (s : Nat) :
    ((∀ t b, respAt = some (t, b) → 300 ≤ t) →
      request_confirmation stopAt respAt = false) ∧
      (∀ t, request_confirmation stopAt (some (t, false)) = false) ∧
      ((∀ t b, respAt = some (t, b) → s ≤ t) →
        request_confirmation (some s) respAt = false) := by
  refine ⟨?_, ?_, ?_⟩
  · intro h
    exact confirmLoop_false stopAt respAt (fun n => confirmPost_noresp stopAt respAt n h) 301 0
  · intro t
    exact confirmLoop_false stopAt (some (t, false))
      (fun n => confirmPost_decline stopAt t n) 301 0
  · intro h
    exact confirmLoop_false (some s) respAt (fun n => confirmPost_stop s respAt n h) 301 0

theorem C6_timeout_equals_decline_witness :
    request_confirmation none none = false ∧
      request_confirmation none (some (10, false)) = false ∧
      request_confirmation (some 0) (some (50, true)) = false :=
  ⟨(C6_timeout_equals_decline none none 0).1 (fun t b h => Option.noConfusion h),
    (C6_timeout_equals_decline none none 0).2.1 10,
    (C6_timeout_equals_decline none (some (50, true)) 0).2.2
      (fun t b h => by simp at h; omega)⟩

/-! ## Execution worker main loop (`ExecutionWorker.run`)

Per iteration the environment supplies: whether the stop flag is
already set when the worker reaches the top-of-loop / pause-loop checks
(`stopBefore`), the safety assessment the controller returns for the
action (`sa`), the outcome of the confirmation wait if one is requested
(`confirm`), and the status `_execute_with_retry` would produce if the
action is dispatched (`exec`).  An action is dispatched exactly when an
entry is appended to `action_results`. -/

/-- `ExecutionMode` enum of `execution_manager.py`. -/
inductive ExecutionMode where
  | manual
  | semi_auto
  | full_auto
  | step_by_step
deriving DecidableEq, Repr

/-- `ExecutionConfig` dataclass (the fields the worker loop reads;
`max_execution_time` and `screenshot_enabled` are unused by it). -/
structure ExecutionConfig where
  mode : ExecutionMode
  confirm_dangerous_actions : Bool
  strict_mode : Bool
  auto_retry : Bool
  max_retries : Nat
deriving DecidableEq, Repr

/-- Outcome of one `_request_confirmation` wait: an explicit boolean
response, silence until the 30 s timeout, or a stop observed while
waiting (which also sets `should_stop`). -/
inductive ConfirmOutcome where
  | response (b : Bool)
  | timeout
  | stopped
deriving DecidableEq, Repr

/-- One plan entry together with its environment for the loop. -/
structure ActionStep where
  actionType : String
  description : String
  stopBefore : Bool
  sa : SafetyAssessment
  confirm : ConfirmOutcome
  exec : ExecutionStatus
deriving DecidableEq, Repr

/-- `ExecutionWorker._should_confirm_action` given the assessment the
safety controller returned: a blocked assessment short-circuits to
`(True, "🚫 ...")`; otherwise the mode decides. -/
def should_confirm_action (cfg : ExecutionConfig) (actionType description : String)
    (sa : SafetyAssessment) : Bool × String :=
  if sa.block_execution then
    (true, "🚫 安全控制器阻止执行:\n" ++ sa.warning_message)
  else
    let needs :=
      match cfg.mode with
      | .full_auto => sa.requires_confirmation
      | .manual => true
      | .step_by_step => true
      | .semi_auto =>
          sa.requires_confirmation ||
            (["drag", "key", "hotkey"].contains (pyLower actionType) &&
              cfg.confirm_dangerous_actions)
    let msg :=
      if needs then
        if sa.warning_message ≠ "" then sa.warning_message
        else "即将执行 " ++ actionType ++ " 操作:\n" ++ description
      else ""
    (needs, msg)

/-- The `for i, action in enumerate(self.action_plan)` loop of
`ExecutionWorker.run`, started with the current `should_stop` flag.
Returns `(action_results statuses, should_stop at loop exit,
indices for which a confirmation request was emitted)`; confirmation
indices of the recursive call are shifted by one so that they are
absolute plan indices. -/
def runLoop (cfg : ExecutionConfig) : List ActionStep → Bool →
    List ExecutionStatus × Bool × List Nat
  | [], stop => ([], stop, [])
  | step :: rest, stop =>
      if stop || step.stopBefore then ([], true, [])
      else if (should_confirm_action cfg step.actionType step.description step.sa).1 then
        match step.confirm with
        | .stopped => ([], true, [0])
        | .timeout => ([], false, [0])
        | .response false => ([], false, [0])
        | .response true =>
            if step.exec = ExecutionStatus.failed ∧ cfg.strict_mode = true then
              ([step.exec], false, [0])
            else
              let out := runLoop cfg rest false
              (step.exec :: out.1, out.2.1, 0 :: out.2.2.map (· + 1))
      else
        if step.exec = ExecutionStatus.failed ∧ cfg.strict_mode = true then
          ([step.exec], false, [])
        else
          let out := runLoop cfg rest false
          (step.exec :: out.1, out.2.1, out.2.2.map (· + 1))

/-- `TaskExecutionResult` dataclass (the fields computed by the worker;
`task_id`, wall-clock time and `final_error` are not modelled). -/
structure TaskExecutionResult where
  total_actions : Nat
  completed_actions : Nat
  success_rate : Rat
  status : ExecutionStatus
  action_results : List ExecutionStatus
deriving DecidableEq, Repr

/-- The loop plus the final-result assembly of `ExecutionWorker.run`
(lines computing `completed`, `success_rate`, `overall_status` and the
`TaskExecutionResult`), together with the observable confirmation
requests. -/
structure WorkerRunOutput where
  task : TaskExecutionResult
  stopFlag : Bool
  confirmRequests : List Nat
deriving DecidableEq, Repr

/-- `ExecutionWorker.run` on a plan, starting not-stopped. -/
def workerRun (cfg : ExecutionConfig) (steps : List ActionStep) : WorkerRunOutput :=
  let out := runLoop cfg steps false
  let results := out.1
  let completed := (results.filter (fun r => decide (r = ExecutionStatus.success))).length
  let success_rate : Rat :=
    if steps.isEmpty then 0 else (completed : Rat) / (steps.length : Rat)
  let status :=
    if out.2.1 then ExecutionStatus.cancelled
    else if completed = steps.length then ExecutionStatus.success
    else if completed = 0 then ExecutionStatus.failed
    else ExecutionStatus.failed
  { task :=
      { total_actions := steps.length
        completed_actions := completed
        success_rate := success_rate
        status := status
        action_results := results }
    stopFlag := out.2.1
    confirmRequests := out.2.2 }

theorem workerRun_total (cfg : ExecutionConfig) (steps : List ActionStep) :
    (workerRun cfg steps).task.total_actions = steps.length := rfl

theorem workerRun_results (cfg : ExecutionConfig) (steps : List ActionStep) :
    (workerRun cfg steps).task.action_results = (runLoop cfg steps false).1 := rfl

theorem workerRun_stopFlag (cfg : ExecutionConfig) (steps : List ActionStep) :
    (workerRun cfg steps).stopFlag = (runLoop cfg steps false).2.1 := rfl

theorem workerRun_confirms (cfg : ExecutionConfig) (steps : List ActionStep) :
    (workerRun cfg steps).confirmRequests = (runLoop cfg steps false).2.2 := rfl

theorem workerRun_completed (cfg : ExecutionConfig) (steps : List ActionStep) :
    (workerRun cfg steps).task.completed_actions =
      ((runLoop cfg steps false).1.filter
        (fun r => decide (r = ExecutionStatus.success))).length := rfl

theorem workerRun_status (cfg : ExecutionConfig) (steps : List ActionStep) :
    (workerRun cfg steps).task.status =
      (if (runLoop cfg steps false).2.1 then ExecutionStatus.cancelled
       else if (workerRun cfg steps).task.completed_actions = steps.length then
         ExecutionStatus.success
       else if (workerRun cfg steps).task.completed_actions = 0 then ExecutionStatus.failed
       else ExecutionStatus.failed) := rfl

theorem workerRun_rate (cfg : ExecutionConfig) (steps : List ActionStep) :
    (workerRun cfg steps).task.success_rate =
      (if steps.isEmpty then (0 : Rat)
       else ((workerRun cfg steps).task.completed_actions : Rat) / (steps.length : Rat)) := rfl

theorem filter_success_length_eq_iff (l : List ExecutionStatus) :
    (l.filter (fun r => decide (r = ExecutionStatus.success))).length = l.length ↔
      ∀ r ∈ l, r = ExecutionStatus.success := by
  induction l with
  | nil => simp
  | cons a l ih =>
      by_cases ha : a = ExecutionStatus.success
      · simp [List.filter_cons, ha, ih]
      · have hle : (l.filter (fun r => decide (r = ExecutionStatus.success))).length ≤ l.length :=
          List.length_filter_le _ _
        simp [List.filter_cons, ha]
        omega

theorem runLoop_length_le (cfg : ExecutionConfig) :
    ∀ (steps : List ActionStep) (stop : Bool),
      ((runLoop cfg steps stop).1).length ≤ steps.length := by
  intro steps
  induction steps with
  | nil => intro stop; simp [runLoop]
  | cons step rest ih =>
      intro stop
      have hrec := ih false
      simp only [runLoop]
      split
      · simp
      · split
        · split <;> (try split) <;> simp <;> omega
        · split <;> simp <;> omega

theorem runLoop_stop_length_lt (cfg : ExecutionConfig) :
    ∀ (steps : List ActionStep),
      (runLoop cfg steps false).2.1 = true →
        ((runLoop cfg steps false).1).length < steps.length := by
  intro steps
  induction steps with
  | nil => intro h; simp [runLoop] at h
  | cons step rest ih =>
      intro h
      by_cases h1 : (false || step.stopBefore) = true
      · simp only [runLoop, h1, if_true]
        simp
      · by_cases h2 : (should_confirm_action cfg step.actionType step.description step.sa).1 = true
        · rcases hco : step.confirm with b | _ | _
          · cases b
            · simp [runLoop, h1, h2, hco] at h
            · by_cases h3 : step.exec = ExecutionStatus.failed ∧ cfg.strict_mode = true
              · simp [runLoop, h1, h2, hco, h3] at h
              · simp [runLoop, h1, h2, hco, h3] at h ⊢
                have := ih h
                omega
          · simp [runLoop, h1, h2, hco] at h
          · simp only [runLoop] at h ⊢
            simp [h1, h2, hco]
        · by_cases h3 : step.exec = ExecutionStatus.failed ∧ cfg.strict_mode = true
          · simp [runLoop, h1, h2, h3] at h
          · simp [runLoop, h1, h2, h3] at h ⊢
            have := ih h
            omega

/-- C2: the terminal status is CANCELLED whenever the stop flag was
observed (at a loop checkpoint or inside the confirmation wait) before
completion; otherwise SUCCESS iff every plan action has a recorded
result and every recorded result is SUCCESS, FAILED in every other
non-stopped run (zero or some-but-not-all successes); in particular a
stop already pending when the first action would dispatch yields
`completed_actions = 0` and status CANCELLED. -/
theorem C2_terminal_status (cfg : ExecutionConfig) (steps : List ActionStep) :
    ((workerRun cfg steps).stopFlag = true →
      (workerRun cfg steps).task.status = ExecutionStatus.cancelled) ∧
      ((workerRun cfg steps).task.status = ExecutionStatus.success ↔
        ((workerRun cfg steps).task.action_results.length = steps.length ∧
          ∀ r ∈ (workerRun cfg steps).task.action_results, r = ExecutionStatus.success)) ∧
      ((workerRun cfg steps).stopFlag = false →
        (workerRun cfg steps).task.status = ExecutionStatus.success ∨
          (workerRun cfg steps).task.status = ExecutionStatus.failed) ∧
      (∀ step rest, steps = step :: rest → step.stopBefore = true →
        (workerRun cfg steps).task.completed_actions = 0 ∧
          (workerRun cfg steps).task.status = ExecutionStatus.cancelled) := by
  have hle := runLoop_length_le cfg steps false
  have hfle : ((runLoop cfg steps false).1.filter
      (fun r => decide (r = ExecutionStatus.success))).length
      ≤ ((runLoop cfg steps false).1).length := List.length_filter_le _ _
  refine ⟨?_, ⟨?_, ?_⟩, ?_, ?_⟩
  · intro h
    rw [workerRun_stopFlag] at h
    rw [workerRun_status, if_pos h]
  · intro hs
    rw [workerRun_status] at hs
    by_cases hf : (runLoop cfg steps false).2.1 = true
    · rw [if_pos hf] at hs
      exact absurd hs (by decide)
    · rw [if_neg hf] at hs
      by_cases hcmp : (workerRun cfg steps).task.completed_actions = steps.length
      · rw [workerRun_completed] at hcmp
        have hrl : ((runLoop cfg steps false).1).length = steps.length := by omega
        have hfl : ((runLoop cfg steps false).1.filter
            (fun r => decide (r = ExecutionStatus.success))).length
            = ((runLoop cfg steps false).1).length := by omega
        refine ⟨by rw [workerRun_results]; exact hrl, ?_⟩
        rw [workerRun_results]
        exact (filter_success_length_eq_iff _).1 hfl
      · rw [if_neg hcmp, ite_self] at hs
        exact absurd hs (by decide)
  · intro h
    obtain ⟨hlen, hall⟩ := h
    rw [workerRun_results] at hlen hall
    have hfl : ((runLoop cfg steps false).1.filter
        (fun r => decide (r = ExecutionStatus.success))).length
        = ((runLoop cfg steps false).1).length :=
      (filter_success_length_eq_iff _).2 hall
    have hcmp : (workerRun cfg steps).task.completed_actions = steps.length := by
      rw [workerRun_completed]; omega
    have hf : ¬ (runLoop cfg steps false).2.1 = true := by
      intro hf
      have := runLoop_stop_length_lt cfg steps hf
      omega
    rw [workerRun_status, if_neg hf, if_pos hcmp]
  · intro h
    rw [workerRun_stopFlag] at h
    rw [workerRun_status, if_neg (by simp [h])]
    by_cases hcmp : (workerRun cfg steps).task.completed_actions = steps.length
    · rw [if_pos hcmp]
      exact Or.inl rfl
    · rw [if_neg hcmp, ite_self]
      exact Or.inr rfl
  · intro step rest hsteps hsb
    subst hsteps
    have hloop : runLoop cfg (step :: rest) false = ([], true, []) := by
      simp [runLoop, hsb]
    constructor
    · rw [workerRun_completed, hloop]
      rfl
    · rw [workerRun_status, hloop]
      rfl

theorem C2_terminal_status_witness :
    (workerRun ⟨ExecutionMode.full_auto, true, false, true, 2⟩
        [⟨"click", "点击", true, ⟨0, RiskLevel.low, [], false, false, ""⟩,
          ConfirmOutcome.response true, ExecutionStatus.success⟩]).task.completed_actions = 0 ∧
      (workerRun ⟨ExecutionMode.full_auto, true, false, true, 2⟩
        [⟨"click", "点击", true, ⟨0, RiskLevel.low, [], false, false, ""⟩,
          ConfirmOutcome.response true, ExecutionStatus.success⟩]).task.status
        = ExecutionStatus.cancelled :=
  (C2_terminal_status ⟨ExecutionMode.full_auto, true, false, true, 2⟩
      [⟨"click", "点击", true, ⟨0, RiskLevel.low, [], false, false, ""⟩,
        ConfirmOutcome.response true, ExecutionStatus.success⟩]).2.2.2
    ⟨"click", "点击", true, ⟨0, RiskLevel.low, [], false, false, ""⟩,
      ConfirmOutcome.response true, ExecutionStatus.success⟩ [] rfl rfl

/-- C3 counterexample: a one-action plan whose stop flag is already set
when the loop starts produces `total_actions = 1` (the plan length) but
an empty `action_results` list, refuting
`total_actions == len(action_results)`. -/
theorem C3_total_actions_ne_results_length :
    (workerRun ⟨ExecutionMode.full_auto, true, false, true, 2⟩
        [⟨"click", "点击", true, ⟨0, RiskLevel.low, [], false, false, ""⟩,
          ConfirmOutcome.response true, ExecutionStatus.success⟩]).task.total_actions = 1 ∧
      (workerRun ⟨ExecutionMode.full_auto, true, false, true, 2⟩
        [⟨"click", "点击", true, ⟨0, RiskLevel.low, [], false, false, ""⟩,
          ConfirmOutcome.response true, ExecutionStatus.success⟩]).task.action_results.length
        = 0 ∧ (1 : Nat) ≠ 0 := by
  refine ⟨rfl, rfl, by decide⟩

/-- C3 (amended): `total_actions` equals the plan length (so
`len(action_results) ≤ total_actions`, with equality only when the loop
ran to the end of the plan), `completed_actions` counts the SUCCESS
entries of `action_results`, and
`success_rate = completed_actions / total_actions` (0 when
`total_actions = 0`). -/
theorem C3_aggregate_invariants (cfg : ExecutionConfig) (steps : List ActionStep) :
    (workerRun cfg steps).task.total_actions = steps.length ∧
      (workerRun cfg steps).task.action_results.length
        ≤ (workerRun cfg steps).task.total_actions ∧
      (workerRun cfg steps).task.completed_actions
        = ((workerRun cfg steps).task.action_results.filter
            (fun r => decide (r = ExecutionStatus.success))).length ∧
      (workerRun cfg steps).task.success_rate =
        (if (workerRun cfg steps).task.total_actions = 0 then (0 : Rat)
         else ((workerRun cfg steps).task.completed_actions : Rat)
            / ((workerRun cfg steps).task.total_actions : Rat)) := by
  refine ⟨rfl, ?_, rfl, ?_⟩
  · rw [workerRun_results, workerRun_total]
    exact runLoop_length_le cfg steps false
  · rw [workerRun_rate, workerRun_total]
    by_cases he : steps.isEmpty
    · rw [if_pos he, if_pos (by simpa [List.isEmpty_iff_length_eq_zero] using he)]
    · rw [if_neg he, if_neg (by simpa [List.isEmpty_iff_length_eq_zero] using he)]

theorem runLoop_decline (cfg : ExecutionConfig) :
    ∀ (steps : List ActionStep) (i : Nat) (st : ActionStep),
      (∀ s ∈ steps, s.stopBefore = false ∧ s.confirm ≠ ConfirmOutcome.stopped) →
      i ∈ (runLoop cfg steps false).2.2 →
      steps.get? i = some st →
      st.confirm = ConfirmOutcome.response false →
      ((runLoop cfg steps false).1).length ≤ i ∧ (runLoop cfg steps false).2.1 = false := by
  intro steps
  induction steps with
  | nil =>
      intro i st hns hmem hget hdecl
      simp [runLoop] at hmem
  | cons step rest ih =>
      intro i st hns hmem hget hdecl
      have hsb : step.stopBefore = false := (hns step (by simp)).1
      have hnstop : step.confirm ≠ ConfirmOutcome.stopped := (hns step (by simp)).2
      by_cases h2 : (should_confirm_action cfg step.actionType step.description step.sa).1 = true
      · rcases hco : step.confirm with b | _ | _
        · cases b
          · simp [runLoop, hsb, h2, hco]
          · by_cases h3 : step.exec = ExecutionStatus.failed ∧ cfg.strict_mode = true
            · simp [runLoop, hsb, h2, hco, h3] at hmem
              subst hmem
              have hst : step = st := by simpa using hget
              rw [← hst, hco] at hdecl
              simp at hdecl
            · simp [runLoop, hsb, h2, hco, h3] at hmem ⊢
              rcases hmem with rfl | ⟨j, hj, rfl⟩
              · have hst : step = st := by simpa using hget
                rw [← hst, hco] at hdecl
                simp at hdecl
              · obtain ⟨hr1, hr2⟩ := ih j st (fun s hs => hns s (by simp [hs])) hj hget hdecl
                exact ⟨by omega, hr2⟩
        · simp [runLoop, hsb, h2, hco] at hmem
          subst hmem
          have hst : step = st := by simpa using hget
          rw [← hst, hco] at hdecl
          simp at hdecl
        · exact absurd hco hnstop
      · by_cases h3 : step.exec = ExecutionStatus.failed ∧ cfg.strict_mode = true
        · simp [runLoop, hsb, h2, h3] at hmem
        · simp [runLoop, hsb, h2, h3] at hmem ⊢
          rcases hmem with ⟨j, hj, rfl⟩
          obtain ⟨hr1, hr2⟩ := ih j st (fun s hs => hns s (by simp [hs])) hj hget hdecl
          exact ⟨by omega, hr2⟩

/-- C10: if the confirmation request for action `i` was emitted and the
environment answers it with an explicit decline (`response false`), and
no stop is ever observed, then no result is recorded for action `i` or
any later action (equivalently, no action with index `≥ i` is
dispatched), the stop flag stays clear, and the terminal task status is
FAILED — not CANCELLED. -/
theorem C10_decline_halts_plan (cfg : ExecutionConfig) (steps : List ActionStep)
    (i : Nat) (st : ActionStep)
    (hns : ∀ s ∈ steps, s.stopBefore = false ∧ s.confirm ≠ ConfirmOutcome.stopped)
    (hmem : i ∈ (workerRun cfg steps).confirmRequests)
    (hget : steps.get? i = some st)
    (hdecl : st.confirm = ConfirmOutcome.response false) :
    (workerRun cfg steps).task.action_results.length ≤ i ∧
      (workerRun cfg steps).stopFlag = false ∧
      (workerRun cfg steps).task.status = ExecutionStatus.failed := by
  rw [workerRun_confirms] at hmem
  have h := runLoop_decline cfg steps i st hns hmem hget hdecl
  have hi : i < steps.length := by
    by_contra hi
    rw [List.get?_eq_none.2 (Nat.le_of_not_lt hi)] at hget
    cases hget
  refine ⟨by rw [workerRun_results]; exact h.1,
    by rw [workerRun_stopFlag]; exact h.2, ?_⟩
  have hcmp : (workerRun cfg steps).task.completed_actions < steps.length := by
    rw [workerRun_completed]
    have hfle := List.length_filter_le
      (fun r => decide (r = ExecutionStatus.success)) (runLoop cfg steps false).1
    omega
  rw [workerRun_status, if_neg (by simp [h.2]), if_neg (by omega), ite_self]

theorem C10_decline_halts_plan_witness :
    (workerRun ⟨ExecutionMode.manual, true, false, true, 2⟩
        [⟨"click", "第一步", false, ⟨0, RiskLevel.low, [], false, false, ""⟩,
          ConfirmOutcome.response false, ExecutionStatus.success⟩,
         ⟨"click", "第二步", false, ⟨1, RiskLevel.low, [], false, false, ""⟩,
          ConfirmOutcome.response true, ExecutionStatus.success⟩]).task.status
      = ExecutionStatus.failed :=
  (C10_decline_halts_plan ⟨ExecutionMode.manual, true, false, true, 2⟩
      [⟨"click", "第一步", false, ⟨0, RiskLevel.low, [], false, false, ""⟩,
        ConfirmOutcome.response false, ExecutionStatus.success⟩,
       ⟨"click", "第二步", false, ⟨1, RiskLevel.low, [], false, false, ""⟩,
        ConfirmOutcome.response true, ExecutionStatus.success⟩] 0
      ⟨"click", "第一步", false, ⟨0, RiskLevel.low, [], false, false, ""⟩,
        ConfirmOutcome.response false, ExecutionStatus.success⟩
      (by decide) (by decide) (by decide) (by decide)).2.2

/-- C1, evaluated at the failing input: an action whose assessment has
`block_execution = true` still causes the worker to SOLICIT a user
confirmation (a request is emitted for index 0, with the blocking
message) and, because the environment answers `true`, the action IS
dispatched: an ExecutionResult is recorded and the plan terminates
SUCCESS instead of halting deterministically at the blocked action. -/
theorem C1_blocked_action_solicited_and_dispatched :
    (workerRun ⟨ExecutionMode.full_auto, true, false, true, 2⟩
        [⟨"type", "输入文本", false,
          ⟨0, RiskLevel.critical, [], true, true, "⚠️ 检测到极高风险操作"⟩,
          ConfirmOutcome.response true, ExecutionStatus.success⟩]).confirmRequests = [0] ∧
      (workerRun ⟨ExecutionMode.full_auto, true, false, true, 2⟩
        [⟨"type", "输入文本", false,
          ⟨0, RiskLevel.critical, [], true, true, "⚠️ 检测到极高风险操作"⟩,
          ConfirmOutcome.response true, ExecutionStatus.success⟩]).task.action_results
        = [ExecutionStatus.success] ∧
      (workerRun ⟨ExecutionMode.full_auto, true, false, true, 2⟩
        [⟨"type", "输入文本", false,
          ⟨0, RiskLevel.critical, [], true, true, "⚠️ 检测到极高风险操作"⟩,
          ConfirmOutcome.response true, ExecutionStatus.success⟩]).task.status
        = ExecutionStatus.success :=
  ⟨rfl, rfl, rfl⟩
